import Mathlib

/-
  Verification of the CASAN-contiki L2 IEEE 802.15.4 shim (l2-154.c) and the
  rf2xx radio driver header (rf2xx.h), as a shallow embedding.

  Machine integers are modelled as Nat with explicit reduction modulo 2 ^ w
  where overflow matters (size_t has an abstract bit width w, passed as a
  parameter).  C strings are modelled as the list of characters before the
  terminating NUL (hence NUL-free by construction).  Calls into the external
  MAC library (sendto, get_received, skip_received, setAddr2, setChannel,
  setPanid, setMsgbufsize, start) are modelled as explicit inputs, outputs or
  recorded calls.  malloc outcomes are Boolean parameters; the source only
  prints a message on failure, which the models record as a message list.
-/

namespace Casan154

/-- Modelled from the spec: constant I154_ADDRLEN of the missing header
l2-154.h; a 16-bit short address is two bytes. -/
def I154_ADDRLEN : Nat := 2

/-- Constant I154_SIZE_HEADER of l2-154.c line 22: 2 bytes FCF, 1 byte
sequence number, 2 bytes destination address, 2 bytes destination PANID,
2 bytes source address. -/
def I154_SIZE_HEADER : Nat := 2 + 1 + 2 + 2 + 2

/-- Constant I154_SIZE_FCS of l2-154.c line 23: the 2-byte CRC-16 checksum. -/
def I154_SIZE_FCS : Nat := 2

/-- Modelled from the spec: constant I154_MTU of the missing header; the
source comment (l2-154.c line 19) gives the IEEE 802.15.4 frame size 127. -/
def I154_MTU : Nat := 127

/-- Modelled from the spec: macro CONST16 of the missing header packs two
bytes into a 16-bit addr2_t value; printAddr prints BYTE_LOW first, so the
first argument is taken as the low byte.  No claim depends on the byte
order. -/
def CONST16 (lo hi : Nat) : Nat := lo % 256 + 256 * (hi % 256)

/-- Global addr2_broadcast of l2-154.c line 5: CONST16 (0xff, 0xff). -/
def addr2_broadcast : Nat := CONST16 0xff 0xff

/-- The character ':' used by the address parser. -/
def colonChar : Char := ':'

/-- Model of C isdigit on the ASCII range. -/
def isdigitC (c : Char) : Bool := 48 ≤ c.toNat && c.toNat ≤ 57

/-- Model of C isxdigit on the ASCII range. -/
def isxdigitC (c : Char) : Bool :=
  isdigitC c || (97 ≤ c.toNat && c.toNat ≤ 102) || (65 ≤ c.toNat && c.toNat ≤ 70)

/-- Model of C tolower on the ASCII range. -/
def tolowerC (c : Char) : Char :=
  if 65 ≤ c.toNat && c.toNat ≤ 90 then Char.ofNat (c.toNat + 32) else c

/-- Hex digit value as computed at l2-154.c lines 57-58:
c = tolower (*a) ; x = isdigit (c) ? (c - '0') : (c - 'a' + 10). -/
def hexvalC (c : Char) : Nat :=
  if isdigitC (tolowerC c) then (tolowerC c).toNat - 48
  else (tolowerC c).toNat - 97 + 10

/-- The loop dichotomy of the parser: a character that is consumed without
zeroing the buffer is either a hex digit or a colon (l2-154.c lines 47-60). -/
def validChar (c : Char) : Bool := isxdigitC c || c == colonChar

/-- Write to the two-byte stack array buf, modelled as a pair. -/
def bufSet (buf : Nat × Nat) (i v : Nat) : Nat × Nat :=
  if i = 0 then (v, buf.2) else if i = 1 then (buf.1, v) else buf

/-- The character-scanning loop of init_l2addr_154_char (l2-154.c lines
45-68).  State: index i, byte accumulator b (a uint8, reduced mod 256), and
the buffer.  On a character that is neither a hex digit nor a colon the
source zeroes the whole buffer with a for loop that leaves i equal to
I154_ADDRLEN, then breaks.  Returns (buf, i, b) at loop exit. -/
def addrScan : List Char → Nat → Nat → Nat × Nat → (Nat × Nat) × Nat × Nat
  | [], i, b, buf => (buf, i, b)
  | c :: rest, i, b, buf =>
    if i < I154_ADDRLEN then
      if c = colonChar then addrScan rest (i + 1) 0 (bufSet buf i b)
      else if isxdigitC c then addrScan rest i ((16 * b + hexvalC c) % 256) buf
      else ((0, 0), I154_ADDRLEN, b)
    else (buf, i, b)

/-- The printf message of every failed-malloc branch in l2-154.c. -/
def allocMsg : String := "Memory allocation failed\n"

/-- Structure l2addr_154: a single 16-bit short address field addr_. -/
structure l2addr_154 where
  addr_ : Nat
  deriving DecidableEq

/-- Function init_l2addr_154_char (l2-154.c lines 32-74).  allocFail models
malloc returning NULL (the source only prints a message and continues);
buf0 is the initial contents of the uninitialised stack array buf (the
source never clears it before the scan).  Returns the constructed address
and the printed messages. -/
def init_l2addr_154_char (allocFail : Bool) (buf0 : Nat × Nat) (a : List Char) :
    l2addr_154 × List String :=
  let msgs := if allocFail then [allocMsg] else []
  let r := addrScan a 0 0 buf0
  let buf := if r.2.1 < I154_ADDRLEN then bufSet r.1 r.2.1 r.2.2 else r.1
  ({ addr_ := CONST16 buf.1 buf.2 }, msgs)

/-- Function init_l2addr_154_addr (l2-154.c lines 85-91). -/
def init_l2addr_154_addr (allocFail : Bool) (x : l2addr_154) :
    l2addr_154 × List String :=
  ({ addr_ := x.addr_ }, if allocFail then [allocMsg] else [])

/-- Function copyAddr (l2-154.c lines 93-95): x->addr_ = y->addr_.  The
model returns the updated x; y is read only. -/
def copyAddr (x y : l2addr_154) : l2addr_154 :=
  { x with addr_ := y.addr_ }

/-- Function isEqualAddr (l2-154.c lines 98-101). -/
def isEqualAddr (x y : l2addr_154) : Bool :=
  x.addr_ == y.addr_

/-- Function setBroasdcastAddr (l2-154.c lines 77-79): assigns the global
l2addr_154_broadcast from init_l2addr_154_char ("ff:ff").  Returns the new
global value and the printed messages. -/
def setBroasdcastAddr (allocFail : Bool) (buf0 : Nat × Nat) :
    l2addr_154 × List String :=
  init_l2addr_154_char allocFail buf0 ("ff:ff".toList)

/-- Modelled from the spec: the received-frame structure of the external
ZigMsg-style library (header not in src); recv, get_src, get_dst,
get_payload and get_paylen read the fields below. -/
structure Frame where
  frametype : Nat
  fcf : Nat
  dstaddr : Nat
  srcaddr : Nat
  paylen : Nat
  deriving DecidableEq

/-- Structure l2net_154: own 16-bit short address, configured MTU (size_t)
and the borrowed current-frame reference. -/
structure l2net_154 where
  myaddr_ : Nat
  mtu_ : Nat
  curframe_ : Option Frame
  deriving DecidableEq

/-- Modelled from the spec: the l2_recv_t enumeration of the missing
header; the spec names exactly the outcomes empty, ok and
wrong-destination. -/
inductive l2_recv_t where
  | RECV_EMPTY
  | RECV_OK
  | RECV_WRONG_DEST
  deriving DecidableEq

/-- Modelled from the spec: ZigMsg frame-type constant for data frames
(IEEE 802.15.4 frame-type field value 1). -/
def Z_FT_DATA : Nat := 1

/-- Modelled from the spec: ZigMsg address-mode constant for 16-bit short
addresses. -/
def Z_ADDRMODE_ADDR2 : Nat := 2

/-- Modelled from the spec: destination-address-mode field of the IEEE
802.15.4 frame-control word (bits 10-11). -/
def Z_GET_DST_ADDR_MODE (fcf : Nat) : Nat := fcf / 2 ^ 10 % 4

/-- Modelled from the spec: source-address-mode field of the frame-control
word (bits 14-15). -/
def Z_GET_SRC_ADDR_MODE (fcf : Nat) : Nat := fcf / 2 ^ 14 % 4

/-- Modelled from the spec: intra-PAN bit of the frame-control word
(bit 6), used as a truth value by recv. -/
def Z_GET_INTRA_PAN (fcf : Nat) : Nat := fcf / 2 ^ 6 % 2

/-- The frame-header validity condition of recv (l2-154.c lines 199-204):
data frame type, 16-bit destination and source address modes, intra-PAN
bit set. -/
def frameHeaderOk (f : Frame) : Prop :=
  f.frametype = Z_FT_DATA ∧ Z_GET_DST_ADDR_MODE f.fcf = Z_ADDRMODE_ADDR2 ∧
  Z_GET_SRC_ADDR_MODE f.fcf = Z_ADDRMODE_ADDR2 ∧ Z_GET_INTRA_PAN f.fcf ≠ 0

instance (f : Frame) : Decidable (frameHeaderOk f) := by
  unfold frameHeaderOk
  infer_instance

/-- Function recv (l2-154.c lines 191-215).  rcvd is the value returned by
get_received in this call.  Returns the classification, the updated
l2net_154 (curframe_ replaced by rcvd) and whether skip_received was
called (the source calls it exactly when curframe_ was non-NULL). -/
def recv (l2 : l2net_154) (rcvd : Option Frame) : l2_recv_t × l2net_154 × Bool :=
  let skipped := l2.curframe_.isSome
  let l2' : l2net_154 := { l2 with curframe_ := rcvd }
  match rcvd with
  | none => (l2_recv_t.RECV_EMPTY, l2', skipped)
  | some f =>
    if f.frametype = Z_FT_DATA ∧ Z_GET_DST_ADDR_MODE f.fcf = Z_ADDRMODE_ADDR2 ∧
        Z_GET_SRC_ADDR_MODE f.fcf = Z_ADDRMODE_ADDR2 ∧ Z_GET_INTRA_PAN f.fcf ≠ 0 then
      if f.dstaddr ≠ l2.myaddr_ ∧ f.dstaddr ≠ addr2_broadcast then
        (l2_recv_t.RECV_WRONG_DEST, l2', skipped)
      else
        (l2_recv_t.RECV_OK, l2', skipped)
    else (l2_recv_t.RECV_EMPTY, l2', skipped)

/-- Wrap-around subtraction of size_t values of bit width w, as C computes
a - b on unsigned operands already below 2 ^ w. -/
def szSub (w a b : Nat) : Nat := (a + (2 ^ w - b % 2 ^ w)) % 2 ^ w

/-- Function maxpayload (l2-154.c lines 164-166): mtu_ minus header and
checksum sizes, in size_t arithmetic of width w. -/
def maxpayload (w : Nat) (l2 : l2net_154) : Nat :=
  szSub w l2.mtu_ (I154_SIZE_HEADER + I154_SIZE_FCS)

/-- Function send (l2-154.c lines 169-175).  sendto is the external
library call; the second component records whether it was called.  When
the length check fails the initial value false of success is returned. -/
def send (w : Nat) (sendto : Nat → List Nat → Nat → Bool) (l2 : l2net_154)
    (dest : l2addr_154) (data : List Nat) (len : Nat) : Bool × Bool :=
  if len ≤ szSub w l2.mtu_ (I154_SIZE_HEADER + I154_SIZE_FCS) then
    (sendto dest.addr_ data len, true)
  else (false, false)

/-- The external configuration calls issued by startL2_154, recorded as a
trace. -/
inductive ExtCall where
  | setAddr2 (a : Nat)
  | setChannel (c : Nat)
  | setPanid (p : Nat)
  | setMsgbufsize (n : Nat)
  | start
  deriving DecidableEq

/-- The global state owned by l2-154.c that the claims mention: the
broadcast address object l2addr_154_broadcast. -/
structure Globals where
  l2addr_154_broadcast : Option l2addr_154
  deriving DecidableEq

/-- Function bcastaddr (l2-154.c lines 227-229): returns the global
broadcast address object. -/
def bcastaddr (g : Globals) : Option l2addr_154 :=
  g.l2addr_154_broadcast

/-- Result of startL2_154: the new l2net_154, the globals after the call,
the trace of external-library calls, and the printed messages. -/
structure StartResult where
  l2 : l2net_154
  globals : Globals
  calls : List ExtCall
  msgs : List String
  deriving DecidableEq

/-- Function startL2_154 (l2-154.c lines 141-162).  afL2, afConmsg and
afBcast model the malloc outcomes for the l2net_154, the ConMsg and the
broadcast address allocated inside setBroasdcastAddr; buf0 is the
uninitialised parser stack buffer of that inner call. -/
def startL2_154 (afL2 afConmsg afBcast : Bool) (buf0 : Nat × Nat)
    (a : l2addr_154) (chan panid : Nat) : StartResult :=
  let bc := setBroasdcastAddr afBcast buf0
  { l2 := { myaddr_ := a.addr_, mtu_ := I154_MTU, curframe_ := none },
    globals := { l2addr_154_broadcast := some bc.1 },
    calls := [ExtCall.setAddr2 a.addr_, ExtCall.setChannel chan,
              ExtCall.setPanid panid, ExtCall.setMsgbufsize 10, ExtCall.start],
    msgs := (if afL2 then [allocMsg] else []) ++
            (if afConmsg then [allocMsg] else []) ++ bc.2 }

/-- Function get_src (l2-154.c lines 241-248).  When curframe_ is NULL the
source dereferences a null pointer (undefined behaviour); the model reads
0 there. -/
def get_src (allocFail : Bool) (l2 : l2net_154) : l2addr_154 × List String :=
  ({ addr_ := match l2.curframe_ with | some f => f.srcaddr | none => 0 },
   if allocFail then [allocMsg] else [])

/-- Function get_dst (l2-154.c lines 261-268), as get_src but for the
destination address. -/
def get_dst (allocFail : Bool) (l2 : l2net_154) : l2addr_154 × List String :=
  ({ addr_ := match l2.curframe_ with | some f => f.dstaddr | none => 0 },
   if allocFail then [allocMsg] else [])

/-- Function setMTU (l2-154.c lines 330-332). -/
def setMTU (l2 : l2net_154) (mtu : Nat) : l2net_154 :=
  { l2 with mtu_ := mtu }

/-- Function getMTU (l2-154.c lines 334-336). -/
def getMTU (l2 : l2net_154) : Nat :=
  l2.mtu_

/-- Enumeration radio_tx_done_t (rf2xx.h lines 83-89). -/
inductive radio_tx_done_t where
  | TX_OK
  | TX_CCA_FAIL
  | TX_NO_ACK
  | TX_FAIL
  deriving DecidableEq

/-- C1: for every l2net_154 state and every frame returned by get_received,
recv classifies the frame as valid (RECV_OK or RECV_WRONG_DEST) exactly when
the frame-header checks pass (frame type is data, destination and source
address modes are 16-bit short addresses, intra-PAN bit set); a valid frame
yields RECV_OK exactly when its destination address equals the l2net's own
address or the broadcast address, and RECV_WRONG_DEST otherwise. -/
theorem C1_recv_classification (l2 : l2net_154) (f : Frame) :
    (((recv l2 (some f)).1 = l2_recv_t.RECV_OK ∨
        (recv l2 (some f)).1 = l2_recv_t.RECV_WRONG_DEST) ↔ frameHeaderOk f) ∧
    ((recv l2 (some f)).1 = l2_recv_t.RECV_OK ↔
        (frameHeaderOk f ∧ (f.dstaddr = l2.myaddr_ ∨ f.dstaddr = addr2_broadcast))) ∧
    ((recv l2 (some f)).1 = l2_recv_t.RECV_WRONG_DEST ↔
        (frameHeaderOk f ∧ ¬ (f.dstaddr = l2.myaddr_ ∨ f.dstaddr = addr2_broadcast))) := by
  unfold recv frameHeaderOk
  dsimp only
  split_ifs with h1 h2 <;> simp <;> tauto

/-- C2: for every l2net_154 state and every possible result of get_received
(including no frame), recv returns exactly one of RECV_EMPTY (no frame or a
frame failing the header checks), RECV_OK or RECV_WRONG_DEST. -/
theorem C2_recv_range (l2 : l2net_154) (rcvd : Option Frame) :
    ((recv l2 rcvd).1 = l2_recv_t.RECV_EMPTY ∨ (recv l2 rcvd).1 = l2_recv_t.RECV_OK ∨
        (recv l2 rcvd).1 = l2_recv_t.RECV_WRONG_DEST) ∧
    ((recv l2 rcvd).1 = l2_recv_t.RECV_EMPTY ↔
        (rcvd = none ∨ ∃ f, rcvd = some f ∧ ¬ frameHeaderOk f)) := by
  cases rcvd with
  | none => simp [recv]
  | some f =>
    unfold recv frameHeaderOk
    dsimp only
    split_ifs with h1 h2 <;> simp <;> tauto

/-- C5: isEqualAddr is true exactly when the 16-bit address fields agree,
and copyAddr makes x's field equal to y's (y is read only), so the copy is
then equal to y. -/
theorem C5_addr_value_ops (x y : l2addr_154) :
    (isEqualAddr x y = true ↔ x.addr_ = y.addr_) ∧
    (copyAddr x y).addr_ = y.addr_ ∧
    isEqualAddr (copyAddr x y) y = true := by
  simp [isEqualAddr, copyAddr]

/-- C6: recv replaces the current-frame pointer by the value returned by
get_received in that call, calls skip_received exactly when a previous frame
was held, and leaves the own address and the MTU unchanged. -/
theorem C6_recv_frame_effect (l2 : l2net_154) (rcvd : Option Frame) :
    (recv l2 rcvd).2.1.curframe_ = rcvd ∧
    (recv l2 rcvd).2.2 = l2.curframe_.isSome ∧
    (recv l2 rcvd).2.1.myaddr_ = l2.myaddr_ ∧
    (recv l2 rcvd).2.1.mtu_ = l2.mtu_ := by
  cases rcvd with
  | none => simp [recv]
  | some f =>
    unfold recv
    dsimp only
    split_ifs <;> simp

/-- C10: radio_tx_done_t is an enumeration of exactly four pairwise distinct
values TX_OK, TX_CCA_FAIL, TX_NO_ACK, TX_FAIL, and every transmission
outcome is one of them. -/
theorem C10_tx_done_enumeration :
    (∀ t : radio_tx_done_t, t = radio_tx_done_t.TX_OK ∨ t = radio_tx_done_t.TX_CCA_FAIL ∨
        t = radio_tx_done_t.TX_NO_ACK ∨ t = radio_tx_done_t.TX_FAIL) ∧
    (radio_tx_done_t.TX_OK ≠ radio_tx_done_t.TX_CCA_FAIL ∧
     radio_tx_done_t.TX_OK ≠ radio_tx_done_t.TX_NO_ACK ∧
     radio_tx_done_t.TX_OK ≠ radio_tx_done_t.TX_FAIL ∧
     radio_tx_done_t.TX_CCA_FAIL ≠ radio_tx_done_t.TX_NO_ACK ∧
     radio_tx_done_t.TX_CCA_FAIL ≠ radio_tx_done_t.TX_FAIL ∧
     radio_tx_done_t.TX_NO_ACK ≠ radio_tx_done_t.TX_FAIL) := by
  refine ⟨fun t => ?_, by decide⟩
  cases t <;> simp

/-- Helper: reducing 11 modulo 2 ^ w is the identity once 11 < 2 ^ w. -/
theorem szSub_eleven (w a : Nat) (hw : 11 < 2 ^ w) :
    szSub w a 11 = (a + (2 ^ w - 11)) % 2 ^ w := by
  unfold szSub
  rw [Nat.mod_eq_of_lt hw]

/-- C3: maxpayload is the configured MTU minus the 9-byte fixed header and
the 2-byte checksum, i.e. mtu_ - 11, whenever the MTU is a size_t value of
at least 11. -/
theorem C3_maxpayload_value (w : Nat) (l2 : l2net_154)
    (hlo : 11 ≤ l2.mtu_) (hhi : l2.mtu_ < 2 ^ w) :
    maxpayload w l2 = l2.mtu_ - (I154_SIZE_HEADER + I154_SIZE_FCS) ∧
    maxpayload w l2 = l2.mtu_ - 11 := by
  have h11 : (11 : Nat) < 2 ^ w := lt_of_le_of_lt hlo hhi
  have hc : I154_SIZE_HEADER + I154_SIZE_FCS = 11 := rfl
  have key : maxpayload w l2 = l2.mtu_ - 11 := by
    unfold maxpayload
    rw [hc, szSub_eleven w l2.mtu_ h11]
    rw [show l2.mtu_ + (2 ^ w - 11) = (l2.mtu_ - 11) + 2 ^ w by omega]
    rw [Nat.add_mod_right]
    exact Nat.mod_eq_of_lt (by omega)
  exact ⟨by rw [key, hc], key⟩

/-- Witness for C3 at the default MTU 127 and a 32-bit size_t. -/
theorem C3_maxpayload_value_witness :
    maxpayload 32 { myaddr_ := 1, mtu_ := 127, curframe_ := none } = 127 - 11 :=
  (C3_maxpayload_value 32 { myaddr_ := 1, mtu_ := 127, curframe_ := none }
    (by decide) (by decide)).2

/-- Counterexample for C4: with mtu_ = 0 (hence mtu_ < 11) and the size_t
length 2 ^ 32 - 1 on a 32-bit size_t, the wrapped bound is 2 ^ 32 - 11,
which is smaller than len, so send returns false WITHOUT calling sendto:
the claim that send calls sendto for every len when mtu_ < 11 is false. -/
theorem C4_send_counterexample :
    ({ myaddr_ := 0, mtu_ := 0, curframe_ := none : l2net_154 }.mtu_ < 11) ∧
    (2 ^ 32 - 1 < 2 ^ 32) ∧
    (send 32 (fun _ _ _ => true) { myaddr_ := 0, mtu_ := 0, curframe_ := none }
      { addr_ := 0 } [] (2 ^ 32 - 1)).2 = false ∧
    (send 32 (fun _ _ _ => true) { myaddr_ := 0, mtu_ := 0, curframe_ := none }
      { addr_ := 0 } [] (2 ^ 32 - 1)).1 = false := by
  refine ⟨by decide, by decide, ?_, ?_⟩ <;>
    simp [send, szSub, I154_SIZE_HEADER, I154_SIZE_FCS]

/-- C4 (amended): send calls sendto and returns its result exactly when
len is at most mtu_ - 11 computed in size_t arithmetic modulo 2 ^ w, and
otherwise returns false without calling sendto; when mtu_ < 11 the
subtraction wraps to 2 ^ w - (11 - mtu_), so sendto is called for every
len up to that bound (but not for the size_t lengths above it). -/
theorem C4_send_length_check (w : Nat) (sendto : Nat → List Nat → Nat → Bool)
    (l2 : l2net_154) (dest : l2addr_154) (data : List Nat) (len : Nat)
    (hw : 11 < 2 ^ w) (hmtu : l2.mtu_ < 2 ^ w) :
    (send w sendto l2 dest data len =
      if len ≤ szSub w l2.mtu_ 11 then (sendto dest.addr_ data len, true)
      else (false, false)) ∧
    (l2.mtu_ < 11 → szSub w l2.mtu_ 11 = 2 ^ w - (11 - l2.mtu_)) ∧
    (l2.mtu_ < 11 → len ≤ 2 ^ w - (11 - l2.mtu_) →
      send w sendto l2 dest data len = (sendto dest.addr_ data len, true)) := by
  have hc : I154_SIZE_HEADER + I154_SIZE_FCS = 11 := rfl
  have hwrap : l2.mtu_ < 11 → szSub w l2.mtu_ 11 = 2 ^ w - (11 - l2.mtu_) := by
    intro hsmall
    rw [szSub_eleven w l2.mtu_ hw]
    rw [Nat.mod_eq_of_lt (by omega)]
    omega
  refine ⟨by unfold send; rw [hc], hwrap, ?_⟩
  intro hsmall hlen
  unfold send
  rw [hc, if_pos]
  rw [szSub_eleven w l2.mtu_ hw]
  rw [Nat.mod_eq_of_lt (by omega)]
  omega

/-- Witness for C4 (amended) at a 32-bit size_t, MTU 127, length 5. -/
theorem C4_send_length_check_witness :
    send 32 (fun _ _ _ => true) { myaddr_ := 0, mtu_ := 127, curframe_ := none }
      { addr_ := 7 } [] 5 = (true, true) := by
  have h := C4_send_length_check 32 (fun _ _ _ => true)
    { myaddr_ := 0, mtu_ := 127, curframe_ := none } { addr_ := 7 } [] 5
    (by decide) (by decide)
  rw [h.1, if_pos (by decide)]

/-- C7: on allocation failure every allocating function of l2-154.c only
prints the message and continues: the value each function returns does not
depend on the malloc outcome, and the printed output is exactly the failure
message when the allocation fails and nothing otherwise (for startL2_154,
one message per failed allocation, in program order). -/
theorem C7_alloc_failure_print_only :
    (∀ af buf0 a, (init_l2addr_154_char af buf0 a).2 = if af then [allocMsg] else []) ∧
    (∀ af buf0 a, (init_l2addr_154_char af buf0 a).1 =
        (init_l2addr_154_char false buf0 a).1) ∧
    (∀ af x, (init_l2addr_154_addr af x).2 = if af then [allocMsg] else []) ∧
    (∀ af x, (init_l2addr_154_addr af x).1 = (init_l2addr_154_addr false x).1) ∧
    (∀ af1 af2 af3 buf0 a chan panid,
      (startL2_154 af1 af2 af3 buf0 a chan panid).msgs =
        (if af1 then [allocMsg] else []) ++ (if af2 then [allocMsg] else []) ++
        (if af3 then [allocMsg] else [])) ∧
    (∀ af1 af2 af3 buf0 a chan panid,
      (startL2_154 af1 af2 af3 buf0 a chan panid).l2 =
        (startL2_154 false false false buf0 a chan panid).l2 ∧
      (startL2_154 af1 af2 af3 buf0 a chan panid).globals =
        (startL2_154 false false false buf0 a chan panid).globals ∧
      (startL2_154 af1 af2 af3 buf0 a chan panid).calls =
        (startL2_154 false false false buf0 a chan panid).calls) ∧
    (∀ af l2, (get_src af l2).2 = if af then [allocMsg] else []) ∧
    (∀ af l2, (get_src af l2).1 = (get_src false l2).1) ∧
    (∀ af l2, (get_dst af l2).2 = if af then [allocMsg] else []) ∧
    (∀ af l2, (get_dst af l2).1 = (get_dst false l2).1) := by
  refine ⟨fun af buf0 a => rfl, fun af buf0 a => rfl, fun af x => rfl,
    fun af x => rfl, fun af1 af2 af3 buf0 a chan panid => ?_,
    fun af1 af2 af3 buf0 a chan panid => ⟨rfl, rfl, rfl⟩,
    fun af l2 => rfl, fun af l2 => rfl, fun af l2 => rfl, fun af l2 => rfl⟩
  simp [startL2_154, setBroasdcastAddr, init_l2addr_154_char]

/-- Helper: the broadcast address constructed by setBroasdcastAddr from the
string "ff:ff" has the 16-bit value 0xffff, for every malloc outcome and
every initial content of the uninitialised parser buffer. -/
theorem setBroasdcastAddr_value (af : Bool) (buf0 : Nat × Nat) :
    (setBroasdcastAddr af buf0).1.addr_ = 65535 := by
  show CONST16 255 255 = 65535
  rfl

/-- C9: after startL2_154, the global broadcast object returned by bcastaddr
holds the 16-bit value 0xffff, which is exactly the global addr2_broadcast
constant that recv compares destination addresses with; hence isEqualAddr
against bcastaddr and recv's broadcast comparison agree on every frame. -/
theorem C9_broadcast_agreement (af1 af2 af3 : Bool) (buf0 : Nat × Nat)
    (a : l2addr_154) (chan panid : Nat) :
    ∃ bc, bcastaddr (startL2_154 af1 af2 af3 buf0 a chan panid).globals = some bc ∧
      bc.addr_ = 65535 ∧ addr2_broadcast = 65535 ∧
      ∀ f : Frame, (isEqualAddr { addr_ := f.dstaddr } bc = true ↔
        f.dstaddr = addr2_broadcast) := by
  refine ⟨(setBroasdcastAddr af3 buf0).1, rfl, setBroasdcastAddr_value af3 buf0,
    rfl, fun f => ?_⟩
  rw [isEqualAddr, setBroasdcastAddr_value af3 buf0]
  simp [addr2_broadcast, CONST16]

/-- Default character for out-of-range list reads in lemma statements; the
index is always in range, so the value never matters. -/
def nulChar : Char := Char.ofNat 0

/-- Number of colons in a character list. -/
def countColons (l : List Char) : Nat := l.countP (fun c => c == colonChar)

/-- Helper: when the scan meets a character that is neither a hex digit nor
a colon (all earlier characters valid, and fewer colons than remaining
buffer slots before it, so the loop is still running), it zeroes the buffer
and leaves the index at I154_ADDRLEN. -/
theorem addrScan_invalid_zeroes (s : List Char) :
    ∀ (j i b : Nat) (buf : Nat × Nat),
      j < s.length →
      validChar (s.getD j nulChar) = false →
      (∀ k, k < j → validChar (s.getD k nulChar) = true) →
      i + countColons (s.take j) < I154_ADDRLEN →
      (addrScan s i b buf).1 = (0, 0) ∧ (addrScan s i b buf).2.1 = I154_ADDRLEN := by
  induction s with
  | nil =>
    intro j i b buf hj
    exact absurd hj (by simp)
  | cons c rest ih =>
    intro j i b buf hj hinv hval hcnt
    cases j with
    | zero =>
      have hc : validChar c = false := by simpa [List.getD] using hinv
      have hc' : isxdigitC c = false ∧ ¬ c = colonChar := by
        simpa [validChar] using hc
      have hi : i < I154_ADDRLEN := by
        simpa [countColons] using hcnt
      simp [addrScan, hi, hc'.1, hc'.2]
    | succ j' =>
      have h0 : validChar c = true := by
        simpa [List.getD] using hval 0 (Nat.succ_pos j')
      have hj' : j' < rest.length := by simpa using hj
      have hinv' : validChar (rest.getD j' nulChar) = false := by
        simpa [List.getD] using hinv
      have hval' : ∀ k, k < j' → validChar (rest.getD k nulChar) = true := by
        intro k hk
        simpa [List.getD] using hval (k + 1) (Nat.succ_lt_succ hk)
      have htake : countColons ((c :: rest).take (j' + 1)) =
          countColons (rest.take j') + (if c == colonChar then 1 else 0) := by
        rw [List.take_succ_cons]
        exact List.countP_cons _ _ _
      rw [htake] at hcnt
      by_cases hcol : c = colonChar
      · rw [if_pos (by simp [hcol])] at hcnt
        have hi : i < I154_ADDRLEN := by omega
        have hcnt' : (i + 1) + countColons (rest.take j') < I154_ADDRLEN := by omega
        have step : addrScan (c :: rest) i b buf =
            addrScan rest (i + 1) 0 (bufSet buf i b) := by
          simp [addrScan, hi, hcol]
        rw [step]
        exact ih j' (i + 1) 0 (bufSet buf i b) hj' hinv' hval' hcnt'
      · rw [if_neg (by simp [hcol])] at hcnt
        have hx : isxdigitC c = true := by
          have h1 := h0
          simp [validChar, hcol] at h1
          exact h1
        have hi : i < I154_ADDRLEN := by omega
        have hcnt' : i + countColons (rest.take j') < I154_ADDRLEN := by omega
        have step : addrScan (c :: rest) i b buf =
            addrScan rest i ((16 * b + hexvalC c) % 256) buf := by
          simp [addrScan, hi, hcol, hx]
        rw [step]
        exact ih j' i ((16 * b + hexvalC c) % 256) buf hj' hinv' hval' hcnt'

/-- C8: when the input string holds, within the part the scan actually
reaches (all earlier characters are hex digits or colons, and fewer than
I154_ADDRLEN colons precede it), a character that is neither a hexadecimal
digit nor a colon, the parsed address value is 0, whatever hex digits were
parsed before, whatever the malloc outcome, and whatever garbage the
uninitialised buffer held. -/
theorem C8_invalid_char_zero_address (s : List Char) (j : Nat)
    (hj : j < s.length)
    (hinv : validChar (s.getD j nulChar) = false)
    (hval : ∀ k, k < j → validChar (s.getD k nulChar) = true)
    (hcnt : countColons (s.take j) < I154_ADDRLEN) :
    ∀ af buf0, (init_l2addr_154_char af buf0 s).1.addr_ = 0 := by
  intro af buf0
  obtain ⟨h1, h2⟩ := addrScan_invalid_zeroes s j 0 0 buf0 hj hinv hval
    (by simpa using hcnt)
  unfold init_l2addr_154_char
  dsimp only
  rw [h2, if_neg (by simp [I154_ADDRLEN]), h1]
  rfl

/-- Witness for C8: the string "ab!" (an invalid character after two hex
digits), a failed malloc and garbage (7, 9) in the buffer still give the
address value 0. -/
theorem C8_invalid_char_zero_address_witness :
    (init_l2addr_154_char true (7, 9) [('a' : Char), 'b', '!']).1.addr_ = 0 :=
  C8_invalid_char_zero_address [('a' : Char), 'b', '!'] 2 (by decide) (by decide)
    (by decide) (by decide) true (7, 9)

end Casan154
